import Mathlib

/-!
Shallow embedding of `open_dataset_tools` (AllenInstitute/open_dataset_tools),
files `src/open_dataset_tools/aba_mouse_utils.py`,
`src/open_dataset_tools/aws_utils.py` and
`src/open_dataset_tools/ivy_gap_utils.py`, together with theorems settling
the behavioural claims about the checksum-gated download cache, the
section-data-set index, the image retriever and the ivy-gap key derivation.

Modelling conventions:
* file contents are byte lists (`Bytes`);
* the MD5 implementation (`hashlib`) is external, so every definition that
  hashes is parameterised by an arbitrary digest function
  `md5hex : Bytes → String`;
* JSON parsing (`json.load`) is external, so metadata loading is
  parameterised by `parse : Bytes → Option α`;
* the PIL crop-and-encode step is external, so the image retriever is
  parameterised by `crop : Bytes → Int × Int × Int × Int → Bytes`
  (the quadruple is the crop box `(x0, y0, x1, y1)` computed by the code);
* Python `dict`s become association lists with a membership-checked insert;
  key order only ever feeds a subsequent `.sort()`, so prepend-insertion is
  observationally equivalent to Python's append-insertion;
* Python exceptions become `Except` errors; `warnings.warn` messages are
  returned as data alongside results.
-/

deriving instance DecidableEq for Except

namespace OpenDatasetTools

/-- Raw file contents, one natural number per byte. -/
abbrev Bytes := List Nat

/-- Python `dict` lookup on an association list. -/
def dictGet {κ β : Type} [DecidableEq κ] (k : κ) : List (κ × β) → Option β
  | [] => none
  | (k', v) :: rest => if k = k' then some v else dictGet k rest

/-- Boolean prefix test on character lists (structural, kernel-friendly). -/
def listIsPfxOf : List Char → List Char → Bool
  | [], _ => true
  | _ :: _, [] => false
  | a :: as, b :: bs => a == b && listIsPfxOf as bs

/-- Boolean string-prefix test used to model S3 `list_objects(Prefix=...)`. -/
def strHasPfx (pfx s : String) : Bool := listIsPfxOf pfx.data s.data

/-- An entry of the local filesystem: a regular file (content plus
modification time) or a non-file entry (directory). -/
inductive FSEntry
  | file (content : Bytes) (mtime : Nat)
  | dir
deriving DecidableEq

/-- The local filesystem: paths mapped to entries. -/
structure LocalFS where
  entries : List (String × FSEntry)
deriving DecidableEq

def LocalFS.look (fs : LocalFS) (p : String) : Option FSEntry :=
  dictGet p fs.entries

/-- Writing a regular file: replaces whatever was at `p`, stamping the
write time `now` as the new modification time. -/
def LocalFS.write (fs : LocalFS) (p : String) (c : Bytes) (now : Nat) : LocalFS :=
  ⟨(p, .file c now) :: fs.entries.filter (fun e => e.1 != p)⟩

/-- `Path.mkdir(parents=True, exist_ok=True)` guarded by `exists()`:
creates the directory entry when the path is absent. -/
def ensureDir (fs : LocalFS) (p : String) : LocalFS :=
  if (fs.look p).isSome then fs else ⟨(p, .dir) :: fs.entries⟩

/-- One remote object: bucket, key, ETag (as returned by `list_objects`,
normally the MD5 hex digest wrapped in double quotes) and content. -/
structure S3Object where
  bucket : String
  key : String
  etag : String
  content : Bytes
deriving DecidableEq

/-- The remote store's contents. -/
structure S3State where
  objects : List S3Object
deriving DecidableEq

/-- `s3_client.list_objects(Bucket=..., Prefix=...)['Contents']`: every
object of the bucket whose key extends the prefix. -/
def listObjects (s3 : S3State) (bucketName pfx : String) : List S3Object :=
  s3.objects.filter (fun o => o.bucket == bucketName && strHasPfx pfx o.key)

/-- `s3_client.download_file(Bucket=..., Key=...)`'s source object:
exact-key lookup in the bucket. -/
def s3Find (s3 : S3State) (bucketName key : String) : Option S3Object :=
  s3.objects.find? (fun o => o.bucket == bucketName && o.key == key)

/-- Python `'...'.replace('"','')` with a one-character pattern and empty
replacement: removes every double-quote character. -/
def removeQuoteChars (s : String) : String :=
  ⟨s.data.filter (fun c => c != '"')⟩

/-- Errors raised (as Python exceptions) by the fetcher layer of
`aba_mouse_utils.py`. -/
inductive AwsErr
  | listingCount (fname : String) (n : Nat)
  | notAFile (p : String)
  | md5Mismatch (target : String)
  | downloadNoSuchKey (k : String)
deriving DecidableEq

/-- `_get_aws_md5` (aba_mouse_utils.py lines 18-33): list the bucket by the
file name as prefix; raise unless exactly one object matches; return its
ETag with the quote characters removed. -/
def getAwsMd5 (fname : String) (s3 : S3State) (bucketName : String) :
    Except AwsErr String :=
  match listObjects s3 bucketName fname with
  | [o] => .ok (removeQuoteChars o.etag)
  | l => .error (.listingCount fname l.length)

/-- `_compare_md5` (lines 36-46): digest the local file's bytes and compare
with the target string. (The code feeds the file to MD5 line by line, which
digests exactly the full byte content.) -/
def compareMd5 (md5hex : Bytes → String) (fs : LocalFS) (fname target : String) :
    Bool :=
  match fs.look fname with
  | some (.file c _) => md5hex c == target
  | _ => false

/-- `_need_to_download` (lines 49-86): fetch the remote digest, then decide
whether the local copy is missing or stale; a non-file at the local path is
a fatal error. -/
def needToDownload (md5hex : Bytes → String) (awsKey localFilename : String)
    (fs : LocalFS) (s3 : S3State) (bucketName : String) :
    Except AwsErr (Bool × String) :=
  match getAwsMd5 awsKey s3 bucketName with
  | .error e => .error e
  | .ok targetMd5 =>
    match fs.look localFilename with
    | none => .ok (true, targetMd5)
    | some .dir => .error (.notAFile localFilename)
    | some (.file _ _) =>
      if compareMd5 md5hex fs localFilename targetMd5 then .ok (false, targetMd5)
      else .ok (true, targetMd5)

/-- Result of `_get_aws_file`: the filesystem afterwards and the list of
keys for which a download call was issued. -/
structure FetchResult where
  fs : LocalFS
  downloads : List String
deriving DecidableEq

/-- `_get_aws_file` (lines 89-127): download `bucket:awsKey` to
`localFilename` only if needed; after a download, re-digest the local file
and raise on mismatch with the pre-transfer remote digest. -/
def getAwsFile (md5hex : Bytes → String) (awsKey localFilename : String)
    (fs : LocalFS) (s3 : S3State) (now : Nat) (bucketName : String) :
    Except AwsErr FetchResult :=
  match needToDownload md5hex awsKey localFilename fs s3 bucketName with
  | .error e => .error e
  | .ok (mustDownload, targetMd5) =>
    if mustDownload then
      match s3Find s3 bucketName awsKey with
      | none => .error (.downloadNoSuchKey awsKey)
      | some o =>
        if compareMd5 md5hex (fs.write localFilename o.content now)
            localFilename targetMd5 then
          .ok ⟨fs.write localFilename o.content now, [awsKey]⟩
        else .error (.md5Mismatch targetMd5)
    else .ok ⟨fs, []⟩

/-- Modelled from the spec: `get_public_boto3_client` is imported from
`open_dataset_tools.aws_utils` by both `aba_mouse_utils.py` and
`ivy_gap_utils.py` but is not defined in the source tree provided; per the
spec ("Anonymous/unauthenticated access is a supported mode for public
buckets") and the callers' docstrings ("an s3 client with anonymous
credentials will be automatically created"), it creates an S3 client with
anonymous/unauthenticated credentials. A client is modelled by its
credential descriptor. -/
inductive S3Credentials
  | anonymous
  | keys (accessKeyId secretAccessKey : String)
deriving DecidableEq

/-- A boto3 S3 client, identified by the credentials it carries. -/
structure S3Client where
  creds : S3Credentials
deriving DecidableEq

/-- Modelled from the spec: the missing `get_public_boto3_client` returns
the client with anonymous credentials. -/
def get_public_boto3_client : S3Client := ⟨.anonymous⟩

/-- The external world: the remote store contents as seen through each
client. Public-bucket reads through the anonymous client see the view
associated with `get_public_boto3_client`. -/
structure World where
  views : List (S3Client × S3State)
deriving DecidableEq

/-- The store contents a given client observes. -/
def World.view (w : World) (c : S3Client) : S3State :=
  (dictGet c w.views).getD ⟨[]⟩

/-- A crop rectangle of one downsampling tier
(`{x, y, width, height}` in the metadata). -/
structure Rect where
  x : Int
  y : Int
  width : Int
  height : Int
deriving DecidableEq

/-- One element of a batch's `section_images` list. -/
structure SectionImage where
  id : Int
  section_number : Int
  image_file_name : String
  downsampling : List (String × Rect)
deriving DecidableEq

/-- A parsed `section_data_set.json`: the `section_images` list plus the
remaining metadata fields (kept opaque as key-value pairs). -/
structure SectionMetadata where
  fields : List (String × String)
  section_images : List SectionImage
deriving DecidableEq

/-- Errors of the metadata repository layer. -/
inductive MetaErr
  | aws (e : AwsErr)
  | readFailed (p : String)
  | jsonDecode (p : String)
deriving DecidableEq

/-- Result of `download_s3_metadata_file`: the parsed metadata, the
filesystem afterwards, the client the fetch actually used, and the keys
downloaded. -/
structure MetaResult (α : Type) where
  metadata : α
  fs : LocalFS
  client : S3Client
  downloads : List String
deriving DecidableEq

/-- `download_s3_metadata_file` (aba_mouse_utils.py lines 130-184): create
the download directory if needed; when `s3_client` is `None`, create the
anonymous public client; fetch the file through `_get_aws_file`; parse the
local copy with `json.load`. -/
def download_s3_metadata_file {α : Type} (md5hex : Bytes → String)
    (parse : Bytes → Option α)
    (download_directory downloaded_local_fname metadata_s3_key : String)
    (s3_client : Option S3Client) (w : World) (fs : LocalFS) (now : Nat)
    (bucket_name : String) : Except MetaErr (MetaResult α) :=
  let fs1 := ensureDir fs download_directory
  let client := s3_client.getD get_public_boto3_client
  let localMetadataPath := download_directory ++ "/" ++ downloaded_local_fname
  match getAwsFile md5hex metadata_s3_key localMetadataPath fs1
      (w.view client) now bucket_name with
  | .error e => .error (.aws e)
  | .ok r =>
    match r.fs.look localMetadataPath with
    | some (.file content _) =>
      match parse content with
      | some metadata => .ok ⟨metadata, r.fs, client, r.downloads⟩
      | none => .error (.jsonDecode localMetadataPath)
    | _ => .error (.readFailed localMetadataPath)

/-- `get_atlas_metadata` (lines 187-223): delegates to
`download_s3_metadata_file` for `section_data_sets.json`. The caller's
`s3_client` argument is accepted but not forwarded (the source call at
lines 216-221 omits it), so the fetch always runs with the default. -/
def get_atlas_metadata {α : Type} (md5hex : Bytes → String)
    (parse : Bytes → Option α) (download_directory : String)
    (s3_client : Option S3Client) (w : World) (fs : LocalFS) (now : Nat)
    (bucket_name : String) : Except MetaErr (MetaResult α) :=
  download_s3_metadata_file md5hex parse download_directory
    "section_data_sets.json" "section_data_sets.json" none w fs now bucket_name

/-- `get_section_metadata` (lines 226-265): delegates to
`download_s3_metadata_file` for one section's metadata file. The caller's
`s3_client` argument is accepted but not forwarded (the source call at
lines 258-263 omits it). -/
def get_section_metadata (md5hex : Bytes → String)
    (parse : Bytes → Option SectionMetadata) (section_id : Int)
    (download_directory : String) (s3_client : Option S3Client) (w : World)
    (fs : LocalFS) (now : Nat) (bucket_name : String) :
    Except MetaErr (MetaResult SectionMetadata) :=
  download_s3_metadata_file md5hex parse download_directory
    ("section_data_set_" ++ toString section_id ++ "_metadata.json")
    ("section_data_set_" ++ toString section_id ++ "/section_data_set.json")
    none w fs now bucket_name

/-- The three lookup dicts built by `SectionDataSet.__init__`. -/
structure SectionIndex where
  tissue_index_to_section_img : List (Int × SectionImage)
  subimg_to_tissue_index : List (Int × Int)
  tissue_index_to_subimg : List (Int × Int)
deriving DecidableEq

def emptySectionIndex : SectionIndex := ⟨[], [], []⟩

/-- The `AssertionError`s of the `__init__` loop (lines 317-325), one per
`assert` statement. -/
inductive IndexErr
  | dupTissueIndex (t : Int)
  | dupSubImage (s : Int)
  | dupTissueToSub (t : Int)
deriving DecidableEq

/-- The dict-building loop of `SectionDataSet.__init__` (lines 317-325):
for each image, assert its `section_number` is a fresh tissue index, its
`id` a fresh sub-image id, and the tissue index fresh in the
tissue-to-subimage dict, then record all three mappings. -/
def buildIndex : List SectionImage → SectionIndex → Except IndexErr SectionIndex
  | [], acc => .ok acc
  | img :: rest, acc =>
    let tissueIndex := img.section_number
    if (dictGet tissueIndex acc.tissue_index_to_section_img).isSome then
      .error (.dupTissueIndex tissueIndex)
    else
      let subimgId := img.id
      if (dictGet subimgId acc.subimg_to_tissue_index).isSome then
        .error (.dupSubImage subimgId)
      else if (dictGet tissueIndex acc.tissue_index_to_subimg).isSome then
        .error (.dupTissueToSub tissueIndex)
      else
        buildIndex rest
          ⟨(tissueIndex, img) :: acc.tissue_index_to_section_img,
           (subimgId, tissueIndex) :: acc.subimg_to_tissue_index,
           (tissueIndex, subimgId) :: acc.tissue_index_to_subimg⟩

/-- The constructed `SectionDataSet` object (attributes set by
`__init__`). -/
structure SectionDataSet where
  download_dir : String
  section_id : Int
  s3_client : S3Client
  metadata_fields : List (String × String)
  index : SectionIndex
  tissue_indices : List Int
  sub_image_ids : List Int
deriving DecidableEq

/-- Construction errors: a failed metadata fetch or a failed uniqueness
assertion. -/
inductive InitErr
  | metaErr (e : MetaErr)
  | indexErr (e : IndexErr)
deriving DecidableEq

/-- `SectionDataSet.__init__` (lines 270-330): create the download
directory; resolve `s3_client=None` to the anonymous public client; fetch
the section metadata via `get_section_metadata` WITHOUT forwarding the
client (source lines 305-308 pass only `section_id` and
`download_directory`); split off `section_images`; build the lookup dicts;
store the sorted identifier lists. Returns the object, the filesystem
afterwards and the downloads issued. -/
def initSectionDataSet (md5hex : Bytes → String)
    (parse : Bytes → Option SectionMetadata) (section_id : Int)
    (download_directory : String) (s3_client : Option S3Client) (w : World)
    (fs : LocalFS) (now : Nat) :
    Except InitErr (SectionDataSet × LocalFS × List String) :=
  let fs0 := ensureDir fs download_directory
  let client := s3_client.getD get_public_boto3_client
  match get_section_metadata md5hex parse section_id download_directory none
      w fs0 now "allen-mouse-brain-atlas" with
  | .error e => .error (.metaErr e)
  | .ok r =>
    match buildIndex r.metadata.section_images emptySectionIndex with
    | .error e => .error (.indexErr e)
    | .ok idx =>
      .ok (⟨download_directory, section_id, client, r.metadata.fields, idx,
            List.insertionSort (fun a b => a ≤ b)
              (idx.tissue_index_to_section_img.map Prod.fst),
            List.insertionSort (fun a b => a ≤ b)
              (idx.subimg_to_tissue_index.map Prod.fst)⟩,
           r.fs, r.downloads)

/-- The warning text of `image_metadata_from_tissue_index`
(lines 356-358). -/
def tissueIndexWarning (t sid : Int) : String :=
  "tissue_index " ++ toString t ++ " does not exist in section_data_set_"
    ++ toString sid

/-- The warning text of `image_metadata_from_sub_image` (lines 371-373). -/
def subImageWarning (s sid : Int) : String :=
  "sub_image " ++ toString s ++ " does not exist in section_data_set_"
    ++ toString sid

/-- `image_metadata_from_tissue_index` (lines 348-361): unknown tissue
index yields a warning and the `None` sentinel; otherwise a (deep copy of
the) record. The function is total: it never raises. The second component
collects the warnings issued. -/
def image_metadata_from_tissue_index (ds : SectionDataSet)
    (tissue_index : Int) : Option SectionImage × List String :=
  match dictGet tissue_index ds.index.tissue_index_to_section_img with
  | none => (none, [tissueIndexWarning tissue_index ds.section_id])
  | some img => (some img, [])

/-- `image_metadata_from_sub_image` (lines 363-378): unknown sub-image id
yields a warning and `None`; otherwise resolve the tissue index and
delegate to `image_metadata_from_tissue_index`. Total: never raises. -/
def image_metadata_from_sub_image (ds : SectionDataSet) (sub_image : Int) :
    Option SectionImage × List String :=
  match dictGet sub_image ds.index.subimg_to_tissue_index with
  | none => (none, [subImageWarning sub_image ds.section_id])
  | some tissue_index => image_metadata_from_tissue_index ds tissue_index

/-- Warning text of `_download_img` when the output path is not a regular
file (lines 407-409). -/
def notAFileWarning (p : String) : String :=
  p ++ " already exists but is not a file"

/-- Warning text of `_download_img` when the output exists and `clobber`
is false (lines 412-413). -/
def clobberWarning (p : String) : String :=
  p ++ " already exists; re-run with clobber=True to overwrite"

/-- Warning text of `_download_img` for an unknown downsampling tier
(lines 421-422). -/
def tierWarning (downsample : Int) (fname : String) : String :=
  toString downsample ++ " is not a valid downsampling tier for " ++ fname

/-- Unexpected (raised) errors of `_download_img`: subscripting the `None`
returned for an invalid tissue index (line 417 raises `TypeError`), or a
failing S3 transfer. -/
inductive ImgErr
  | invalidTissueIndex (t : Int)
  | downloadNoSuchKey (k : String)
deriving DecidableEq

/-- Result of `_download_img`: the returned boolean, the filesystem
afterwards and the warnings issued. -/
structure ImgResult where
  success : Bool
  fs : LocalFS
  warns : List String
deriving DecidableEq

/-- The part of `_download_img` after the output-path checks
(lines 416-456): look up the record, validate the downsampling tier,
derive the S3 key, download to a scratch file (created and deleted inside
the call, so it has no net filesystem effect), crop to the tier's box
`(x, y, x+width, y+height)` and save the encoded crop to
`local_savepath`. `crop` stands for the external PIL decode-crop-encode
pipeline. -/
def downloadImgCore (crop : Bytes → Int × Int × Int × Int → Bytes)
    (ds : SectionDataSet) (tissue_index downsample : Int)
    (local_savepath : String) (w : World) (fs : LocalFS) (now : Nat) :
    Except ImgErr ImgResult :=
  match image_metadata_from_tissue_index ds tissue_index with
  | (none, _) => .error (.invalidTissueIndex tissue_index)
  | (some imgMeta, _) =>
    let fname := imgMeta.image_file_name
    let downsampleKey := "downsample_" ++ toString downsample
    match dictGet downsampleKey imgMeta.downsampling with
    | none => .ok ⟨false, fs, [tierWarning downsample fname]⟩
    | some tierMeta =>
      let awsKey := "section_data_set_" ++ toString ds.section_id ++ "/"
        ++ downsampleKey ++ "/" ++ fname
      match s3Find (w.view ds.s3_client) "allen-mouse-brain-atlas" awsKey with
      | none => .error (.downloadNoSuchKey awsKey)
      | some o =>
        let box := (tierMeta.x, tierMeta.y, tierMeta.x + tierMeta.width,
                    tierMeta.y + tierMeta.height)
        .ok ⟨true, fs.write local_savepath (crop o.content box) now, []⟩

/-- `SectionDataSet._download_img` (lines 380-456): warn and return
`False` when the output path exists as a non-file, or exists as a file
without `clobber`; otherwise proceed to download, crop and save. -/
def downloadImg (crop : Bytes → Int × Int × Int × Int → Bytes)
    (ds : SectionDataSet) (tissue_index downsample : Int)
    (local_savepath : String) (clobber : Bool) (w : World) (fs : LocalFS)
    (now : Nat) : Except ImgErr ImgResult :=
  match fs.look local_savepath with
  | some .dir => .ok ⟨false, fs, [notAFileWarning local_savepath]⟩
  | some (.file _ _) =>
    if clobber then
      downloadImgCore crop ds tissue_index downsample local_savepath w fs now
    else .ok ⟨false, fs, [clobberWarning local_savepath]⟩
  | none =>
    downloadImgCore crop ds tissue_index downsample local_savepath w fs now

/-- The bucket-URL literal of `ivy_gap_utils.py` (lines 114 and 312). -/
def ivyBucketUrlPfx : String := "s3://allen-ivy-glioblastoma-atlas/"

/-- Python `str.lstrip(chars)`: removes LEADING CHARACTERS that belong to
the character set of `chars` — it does not remove `chars` as a prefix
string. -/
def pyLstrip (chars s : String) : String :=
  ⟨s.data.dropWhile (fun c => decide (c ∈ chars.data))⟩

/-- The remote-key derivation of `ImagePromise.load` (ivy_gap_utils.py
line 114) and `section_image_downloader` (line 312):
`s3_obj_url.lstrip("s3://allen-ivy-glioblastoma-atlas/")`. -/
def ivyRelPath (s3_obj_url : String) : String :=
  pyLstrip ivyBucketUrlPfx s3_obj_url

/-- The character set named by the claim about the `lstrip` key
derivation, transcribed for comparison with the source-derived
behaviour. -/
def claimedStripSet : List Char :=
  ['s', '3', ':', '/', 'a', 'l', 'e', 'n', '-', 'i', 'v', 'y', 'g', 'o',
   'b', 'm', 't']

/-!
Concrete fixtures used by the witness theorems: a tiny world holding one
section's metadata object and one image object in the public bucket, with
a trivial stand-in digest function (`md5hex` is external to the code under
verification, so any concrete function exercises the same control flow).
-/

def exMd5 : Bytes → String := fun c => "h" ++ toString c.length

def exRect : Rect := ⟨0, 0, 10, 10⟩

def exImg1 : SectionImage := ⟨101, 1, "img1.jpg", [("downsample_4", exRect)]⟩

def exImg2 : SectionImage := ⟨102, 2, "img2.jpg", [("downsample_4", exRect)]⟩

def exMeta : SectionMetadata := ⟨[("genes", "Abc")], [exImg1, exImg2]⟩

/-- A batch with a duplicated tissue index (section_number 1 twice). -/
def exMetaDup : SectionMetadata := ⟨[], [exImg1, ⟨103, 1, "img3.jpg", []⟩]⟩

def exParse : Bytes → Option SectionMetadata := fun _ => some exMeta

def exParseDup : Bytes → Option SectionMetadata := fun _ => some exMetaDup

def exMetaObj : S3Object :=
  ⟨"allen-mouse-brain-atlas", "section_data_set_7/section_data_set.json",
   "\"h1\"", [0]⟩

def exImgObj : S3Object :=
  ⟨"allen-mouse-brain-atlas", "section_data_set_7/downsample_4/img1.jpg",
   "\"h2\"", [5, 6]⟩

def exS3 : S3State := ⟨[exMetaObj, exImgObj]⟩

def exWorld : World := ⟨[(get_public_boto3_client, exS3)]⟩

def emptyFS : LocalFS := ⟨[]⟩

def exCrop : Bytes → Int × Int × Int × Int → Bytes := fun c _ => 9 :: c

/-!
Helper lemmas shared by several claim theorems.
-/

theorem look_write_self (fs : LocalFS) (p : String) (c : Bytes) (now : Nat) :
    (fs.write p c now).look p = some (.file c now) := by
  simp [LocalFS.write, LocalFS.look, dictGet]

/-- Stripping all quote characters from a canonically quoted digest (one
with no interior quote) recovers the digest. -/
theorem removeQuoteChars_wrapped (d : String) (h : '"' ∉ d.data) :
    removeQuoteChars ("\"" ++ d ++ "\"") = d := by
  apply String.ext
  simp only [removeQuoteChars, String.data_append]
  rw [List.filter_append, List.filter_append]
  have h2 : List.filter (fun c => c != '"') ['"'] = [] := rfl
  rw [h2, List.filter_eq_self.mpr]
  · simp
  · intro a ha
    simp only [bne_iff_ne, ne_eq]
    intro hq
    exact h (hq ▸ ha)

/-- C4: querying the remote store's listing for a key is fatal when the
number of matching objects is not exactly one; with exactly one match,
`_get_aws_md5` returns that object's ETag with its quote characters
removed, which for a canonically quoted ETag is exactly the content digest
with the surrounding quotes removed. -/
theorem getAwsMd5_unique_or_fatal (s3 : S3State) (bucketName fname : String) :
    ((listObjects s3 bucketName fname).length ≠ 1 →
      getAwsMd5 fname s3 bucketName =
        .error (.listingCount fname (listObjects s3 bucketName fname).length))
    ∧ (∀ o, listObjects s3 bucketName fname = [o] →
        getAwsMd5 fname s3 bucketName = .ok (removeQuoteChars o.etag)
        ∧ ∀ d, o.etag = "\"" ++ d ++ "\"" → '"' ∉ d.data →
            getAwsMd5 fname s3 bucketName = .ok d) := by
  constructor
  · intro h
    unfold getAwsMd5
    rcases hl : listObjects s3 bucketName fname with _ | ⟨o, _ | ⟨o2, t⟩⟩
    · rfl
    · rw [hl] at h
      exact absurd rfl h
    · rfl
  · intro o hl
    have hok : getAwsMd5 fname s3 bucketName = .ok (removeQuoteChars o.etag) := by
      unfold getAwsMd5
      rw [hl]
    refine ⟨hok, ?_⟩
    intro d hd hq
    rw [hok, hd, removeQuoteChars_wrapped d hq]

/-- Witness for C4 in the fixture world: the key `nomatch` matches zero
objects and raises; the metadata key matches exactly one object, whose
ETag `"h1"` is returned dequoted. -/
theorem getAwsMd5_unique_or_fatal_witness :
    getAwsMd5 "nomatch" exS3 "allen-mouse-brain-atlas" =
      .error (.listingCount "nomatch" 0)
    ∧ getAwsMd5 "section_data_set_7/section_data_set.json" exS3
        "allen-mouse-brain-atlas" = .ok "h1" := by
  constructor
  · exact (getAwsMd5_unique_or_fatal exS3 "allen-mouse-brain-atlas"
      "nomatch").1 (by decide)
  · exact ((getAwsMd5_unique_or_fatal exS3 "allen-mouse-brain-atlas"
      "section_data_set_7/section_data_set.json").2 exMetaObj
      (by decide)).2 "h1" (by decide) (by decide)

/-- Inversion for `_need_to_download`: any successful run got its digest
string from `_get_aws_md5`. -/
theorem needToDownload_ok_md5 {md5hex : Bytes → String}
    {awsKey localFilename : String} {fs : LocalFS} {s3 : S3State}
    {bucketName : String} {must : Bool} {t : String}
    (h : needToDownload md5hex awsKey localFilename fs s3 bucketName =
      .ok (must, t)) :
    getAwsMd5 awsKey s3 bucketName = .ok t := by
  unfold needToDownload at h
  split at h
  · cases h
  · rename_i t' hmd
    split at h
    · simp only [Except.ok.injEq, Prod.mk.injEq] at h
      rw [← h.2]
      exact hmd
    · cases h
    · split at h
      · simp only [Except.ok.injEq, Prod.mk.injEq] at h
        rw [← h.2]
        exact hmd
      · simp only [Except.ok.injEq, Prod.mk.injEq] at h
        rw [← h.2]
        exact hmd

/-- Inversion for `_need_to_download` returning `False`: the local path
holds a regular file whose digest equals the remote target. -/
theorem needToDownload_false_file {md5hex : Bytes → String}
    {awsKey localFilename : String} {fs : LocalFS} {s3 : S3State}
    {bucketName : String} {t : String}
    (h : needToDownload md5hex awsKey localFilename fs s3 bucketName =
      .ok (false, t)) :
    ∃ c m, fs.look localFilename = some (.file c m) ∧ md5hex c = t := by
  unfold needToDownload at h
  split at h
  · cases h
  · rename_i t' hmd
    split at h
    · simp only [Except.ok.injEq, Prod.mk.injEq] at h
      cases h.1
    · cases h
    · rename_i c m hlk
      split at h
      · rename_i hc
        simp only [Except.ok.injEq, Prod.mk.injEq] at h
        refine ⟨c, m, hlk, ?_⟩
        unfold compareMd5 at hc
        rw [hlk] at hc
        have hc' : (md5hex c == t') = true := hc
        rw [← h.2]
        exact eq_of_beq hc'
      · simp only [Except.ok.injEq, Prod.mk.injEq] at h
        cases h.1

/-- The cache-hit computation of `_get_aws_file`: a matching local file
short-circuits to success with nothing written and nothing downloaded. -/
theorem getAwsFile_hit_aux (md5hex : Bytes → String)
    (awsKey localFilename : String) (fs' : LocalFS) (s3 : S3State)
    (now' : Nat) (bucketName : String) (c : Bytes) (m : Nat) (t : String)
    (hlk : fs'.look localFilename = some (.file c m))
    (hmd : getAwsMd5 awsKey s3 bucketName = .ok t)
    (hcmp : md5hex c = t) :
    getAwsFile md5hex awsKey localFilename fs' s3 now' bucketName =
      .ok ⟨fs', []⟩ := by
  have hc : compareMd5 md5hex fs' localFilename t = true := by
    unfold compareMd5
    rw [hlk]
    show (md5hex c == t) = true
    rw [hcmp]
    exact beq_self_eq_true t
  unfold getAwsFile needToDownload
  rw [hmd, hlk]
  simp [hc]

/-- C2: the cache-hit path of `_get_aws_file` — when the local file exists
as a regular file whose digest equals the remote digest, no download call
is issued and the filesystem (hence the file and its modification time)
is entirely unchanged; and after any successful call, a second call with
the remote store unchanged takes the cache-hit path, again leaving the
filesystem unchanged regardless of the second call's clock. -/
theorem getAwsFile_cache_hit_idempotent (md5hex : Bytes → String)
    (awsKey localFilename : String) (fs : LocalFS) (s3 : S3State)
    (now now2 : Nat) (bucketName : String) :
    (∀ c m t, fs.look localFilename = some (.file c m) →
      getAwsMd5 awsKey s3 bucketName = .ok t → md5hex c = t →
      getAwsFile md5hex awsKey localFilename fs s3 now bucketName =
        .ok ⟨fs, []⟩)
    ∧ (∀ r, getAwsFile md5hex awsKey localFilename fs s3 now bucketName =
        .ok r →
        getAwsFile md5hex awsKey localFilename r.fs s3 now2 bucketName =
          .ok ⟨r.fs, []⟩) := by
  have hit : ∀ (fs' : LocalFS) (now' : Nat) (c : Bytes) (m : Nat) (t : String),
      fs'.look localFilename = some (.file c m) →
      getAwsMd5 awsKey s3 bucketName = .ok t → md5hex c = t →
      getAwsFile md5hex awsKey localFilename fs' s3 now' bucketName =
        .ok ⟨fs', []⟩ :=
    fun fs' now' c m t hlk hmd hcmp =>
      getAwsFile_hit_aux md5hex awsKey localFilename fs' s3 now' bucketName
        c m t hlk hmd hcmp
  refine ⟨fun c m t hlk hmd hcmp => hit fs now c m t hlk hmd hcmp, ?_⟩
  intro r h
  unfold getAwsFile at h
  cases hnd : needToDownload md5hex awsKey localFilename fs s3 bucketName with
  | error e => rw [hnd] at h; cases h
  | ok pt =>
    obtain ⟨must, t⟩ := pt
    rw [hnd] at h
    have h0 : (if must = true then
        (match s3Find s3 bucketName awsKey with
         | none => (.error (.downloadNoSuchKey awsKey) :
             Except AwsErr FetchResult)
         | some o =>
           if compareMd5 md5hex (fs.write localFilename o.content now)
               localFilename t = true then
             .ok ⟨fs.write localFilename o.content now, [awsKey]⟩
           else .error (.md5Mismatch t))
      else .ok ⟨fs, []⟩) = .ok r := h
    have hmd : getAwsMd5 awsKey s3 bucketName = .ok t :=
      needToDownload_ok_md5 hnd
    cases must with
    | false =>
      rw [if_neg Bool.false_ne_true] at h0
      simp only [Except.ok.injEq] at h0
      obtain ⟨c, m, hlk, hcmp⟩ := needToDownload_false_file hnd
      rw [← h0]
      exact hit fs now2 c m t hlk hmd hcmp
    | true =>
      rw [if_pos rfl] at h0
      cases hfind : s3Find s3 bucketName awsKey with
      | none => rw [hfind] at h0; cases h0
      | some o =>
        rw [hfind] at h0
        have h' : (if compareMd5 md5hex (fs.write localFilename o.content now)
              localFilename t = true then
            (.ok ⟨fs.write localFilename o.content now, [awsKey]⟩ :
              Except AwsErr FetchResult)
          else .error (.md5Mismatch t)) = .ok r := h0
        by_cases hcm : compareMd5 md5hex
            (fs.write localFilename o.content now) localFilename t = true
        · rw [if_pos hcm] at h'
          simp only [Except.ok.injEq] at h'
          have hcmp : md5hex o.content = t := by
            unfold compareMd5 at hcm
            rw [look_write_self] at hcm
            exact eq_of_beq hcm
          rw [← h']
          exact hit (fs.write localFilename o.content now) now2 o.content now
            t (look_write_self fs localFilename o.content now) hmd hcmp
        · rw [if_neg hcm] at h'
          cases h'

/-- A one-object store in bucket `b` for exercising the fetcher alone. -/
def exS3m : S3State := ⟨[⟨"b", "m.json", "\"h1\"", [0]⟩]⟩

/-- A local filesystem already holding the current copy of `m.json`
(mtime 5). -/
def fsHit : LocalFS := ⟨[("m.json", .file [0] 5)]⟩

/-- The filesystem after downloading `m.json` at time 9. -/
def fsWritten : LocalFS := ⟨[("m.json", .file [0] 9)]⟩

/-- Witness for C2: a cache hit returns success with the filesystem (and
the file's mtime 5) untouched; and after a first call that downloaded at
time 9, the second call at time 11 changes nothing. -/
theorem getAwsFile_cache_hit_idempotent_witness :
    getAwsFile exMd5 "m.json" "m.json" fsHit exS3m 9 "b" = .ok ⟨fsHit, []⟩
    ∧ getAwsFile exMd5 "m.json" "m.json" fsWritten exS3m 11 "b" =
        .ok ⟨fsWritten, []⟩ := by
  constructor
  · exact (getAwsFile_cache_hit_idempotent exMd5 "m.json" "m.json" fsHit
      exS3m 9 11 "b").1 [0] 5 "h1" (by decide) (by decide) (by decide)
  · exact (getAwsFile_cache_hit_idempotent exMd5 "m.json" "m.json" emptyFS
      exS3m 9 11 "b").2 ⟨fsWritten, ["m.json"]⟩ (by decide)

/-- C3: when `_get_aws_file` performs a download, the local file's digest
is re-computed afterwards and compared to the remote digest obtained
before the transfer, and a mismatch raises a fatal error to the caller;
when no download is performed, the call returns successfully, so no
verification error can occur. -/
theorem getAwsFile_verifies_downloads (md5hex : Bytes → String)
    (awsKey localFilename : String) (fs : LocalFS) (s3 : S3State)
    (now : Nat) (bucketName : String) :
    (∀ t o, needToDownload md5hex awsKey localFilename fs s3 bucketName =
        .ok (true, t) →
      s3Find s3 bucketName awsKey = some o →
      compareMd5 md5hex (fs.write localFilename o.content now) localFilename
        t = false →
      getAwsFile md5hex awsKey localFilename fs s3 now bucketName =
        .error (.md5Mismatch t))
    ∧ (∀ t, needToDownload md5hex awsKey localFilename fs s3 bucketName =
        .ok (false, t) →
      getAwsFile md5hex awsKey localFilename fs s3 now bucketName =
        .ok ⟨fs, []⟩
      ∧ ∀ t', getAwsFile md5hex awsKey localFilename fs s3 now bucketName ≠
          .error (.md5Mismatch t')) := by
  constructor
  · intro t o hnd hfind hcm
    simp [getAwsFile, hnd, hfind, hcm]
  · intro t hnd
    obtain ⟨c, m, hlk, hcmp⟩ := needToDownload_false_file hnd
    have hok := getAwsFile_hit_aux md5hex awsKey localFilename fs s3 now
      bucketName c m t hlk (needToDownload_ok_md5 hnd) hcmp
    refine ⟨hok, ?_⟩
    intro t' heq
    rw [hok] at heq
    cases heq

/-- A store whose single object carries an ETag that does not match its
content's digest, so a download cannot verify. -/
def exS3bad : S3State := ⟨[⟨"b", "m.json", "\"zz\"", [0]⟩]⟩

/-- Witness for C3: downloading from the inconsistent store raises the
digest-mismatch error; the cache-hit call on the consistent store cannot
produce it. -/
theorem getAwsFile_verifies_downloads_witness :
    getAwsFile exMd5 "m.json" "m.json" emptyFS exS3bad 9 "b" =
      .error (.md5Mismatch "zz")
    ∧ getAwsFile exMd5 "m.json" "m.json" fsHit exS3m 9 "b" = .ok ⟨fsHit, []⟩ := by
  constructor
  · exact (getAwsFile_verifies_downloads exMd5 "m.json" "m.json" emptyFS
      exS3bad 9 "b").1 "zz" ⟨"b", "m.json", "\"zz\"", [0]⟩ (by decide)
      (by decide) (by decide)
  · exact ((getAwsFile_verifies_downloads exMd5 "m.json" "m.json" fsHit
      exS3m 9 "b").2 "h1" (by decide)).1

theorem dictGet_cons_none {κ β : Type} [DecidableEq κ] {k k' : κ} {v : β}
    {l : List (κ × β)} (h : dictGet k ((k', v) :: l) = none) :
    k ≠ k' ∧ dictGet k l = none := by
  unfold dictGet at h
  by_cases hk : k = k'
  · rw [if_pos hk] at h
    cases h
  · rw [if_neg hk] at h
    exact ⟨hk, h⟩

theorem dictGet_cons_of_ne {κ β : Type} [DecidableEq κ] {k k' : κ} (v : β)
    (l : List (κ × β)) (h : k ≠ k') :
    dictGet k ((k', v) :: l) = dictGet k l := by
  show (if k = k' then some v else dictGet k l) = dictGet k l
  rw [if_neg h]

/-- A successful index build implies both identifier sequences of the
batch were duplicate-free (and disjoint from the accumulator's keys). -/
theorem buildIndex_ok_nodup (imgs : List SectionImage) :
    ∀ (acc idx : SectionIndex), buildIndex imgs acc = .ok idx →
      ((imgs.map (fun i => i.section_number)).Nodup
       ∧ (imgs.map (fun i => i.id)).Nodup)
      ∧ ∀ img ∈ imgs,
          dictGet img.section_number acc.tissue_index_to_section_img = none
          ∧ dictGet img.id acc.subimg_to_tissue_index = none := by
  induction imgs with
  | nil =>
    intro acc idx h
    simp
  | cons img rest ih =>
    intro acc idx h
    simp only [buildIndex] at h
    by_cases h1 :
        (dictGet img.section_number acc.tissue_index_to_section_img).isSome
    · rw [if_pos h1] at h
      cases h
    · rw [if_neg h1] at h
      by_cases h2 : (dictGet img.id acc.subimg_to_tissue_index).isSome
      · rw [if_pos h2] at h
        cases h
      · rw [if_neg h2] at h
        by_cases h3 :
            (dictGet img.section_number acc.tissue_index_to_subimg).isSome
        · rw [if_pos h3] at h
          cases h
        · rw [if_neg h3] at h
          obtain ⟨⟨hn1, hn2⟩, hdisj⟩ := ih _ idx h
          have hsec : ∀ x ∈ rest, x.section_number ≠ img.section_number :=
            fun x hx => (dictGet_cons_none (hdisj x hx).1).1
          have hid : ∀ x ∈ rest, x.id ≠ img.id :=
            fun x hx => (dictGet_cons_none (hdisj x hx).2).1
          refine ⟨⟨?_, ?_⟩, ?_⟩
          · rw [List.map_cons, List.nodup_cons]
            refine ⟨?_, hn1⟩
            intro hmem
            obtain ⟨x, hx, hxe⟩ := List.mem_map.mp hmem
            exact hsec x hx hxe
          · rw [List.map_cons, List.nodup_cons]
            refine ⟨?_, hn2⟩
            intro hmem
            obtain ⟨x, hx, hxe⟩ := List.mem_map.mp hmem
            exact hid x hx hxe
          · intro x hx
            rcases List.mem_cons.mp hx with hx | hx
            · subst hx
              exact ⟨Option.not_isSome_iff_eq_none.mp h1,
                Option.not_isSome_iff_eq_none.mp h2⟩
            · exact ⟨(dictGet_cons_none (hdisj x hx).1).2,
                (dictGet_cons_none (hdisj x hx).2).2⟩

/-- When both identifier sequences of the batch are duplicate-free (and
fresh for the accumulator), the index build succeeds: none of the
assertion branches fire. -/
theorem buildIndex_nodup_ok (imgs : List SectionImage) :
    ∀ acc : SectionIndex,
      (imgs.map (fun i => i.section_number)).Nodup →
      (imgs.map (fun i => i.id)).Nodup →
      (∀ img ∈ imgs,
        dictGet img.section_number acc.tissue_index_to_section_img = none
        ∧ dictGet img.id acc.subimg_to_tissue_index = none
        ∧ dictGet img.section_number acc.tissue_index_to_subimg = none) →
      ∃ idx, buildIndex imgs acc = .ok idx := by
  induction imgs with
  | nil =>
    intro acc _ _ _
    exact ⟨acc, rfl⟩
  | cons img rest ih =>
    intro acc hn1 hn2 hdisj
    have hc := hdisj img (List.mem_cons_self img rest)
    have hsec : ∀ x ∈ rest, x.section_number ≠ img.section_number := by
      intro x hx hxe
      rw [List.map_cons, List.nodup_cons] at hn1
      exact hn1.1 (List.mem_map.mpr ⟨x, hx, hxe⟩)
    have hid : ∀ x ∈ rest, x.id ≠ img.id := by
      intro x hx hxe
      rw [List.map_cons, List.nodup_cons] at hn2
      exact hn2.1 (List.mem_map.mpr ⟨x, hx, hxe⟩)
    simp only [buildIndex, hc.1, hc.2.1, hc.2.2, Option.isSome_none,
      Bool.false_eq_true, if_false]
    apply ih
    · exact (List.nodup_cons.mp ((List.map_cons ..) ▸ hn1)).2
    · exact (List.nodup_cons.mp ((List.map_cons ..) ▸ hn2)).2
    · intro x hx
      refine ⟨?_, ?_, ?_⟩
      · rw [dictGet_cons_of_ne img acc.tissue_index_to_section_img
          (hsec x hx)]
        exact (hdisj x (List.mem_cons_of_mem img hx)).1
      · rw [dictGet_cons_of_ne img.section_number acc.subimg_to_tissue_index
          (hid x hx)]
        exact (hdisj x (List.mem_cons_of_mem img hx)).2.1
      · rw [dictGet_cons_of_ne img.id acc.tissue_index_to_subimg
          (hsec x hx)]
        exact (hdisj x (List.mem_cons_of_mem img hx)).2.2

/-- C5: constructing a `SectionDataSet` from a batch whose
`section_images` list contains a duplicated `section_number` (tissue
index) or a duplicated `id` (sub-image ID) fails fatally during
construction with an assertion error; a batch in which both identifiers
are unique per entry constructs successfully (given the metadata fetch
succeeded), so the assertion branches never fire. -/
theorem initSectionDataSet_uniqueness (md5hex : Bytes → String)
    (parse : Bytes → Option SectionMetadata) (section_id : Int)
    (download_directory : String) (s3_client : Option S3Client) (w : World)
    (fs : LocalFS) (now : Nat) (r : MetaResult SectionMetadata)
    (hmeta : get_section_metadata md5hex parse section_id download_directory
      none w (ensureDir fs download_directory) now "allen-mouse-brain-atlas" =
      .ok r) :
    (¬ ((r.metadata.section_images.map (fun i => i.section_number)).Nodup
        ∧ (r.metadata.section_images.map (fun i => i.id)).Nodup) →
      ∃ e, initSectionDataSet md5hex parse section_id download_directory
        s3_client w fs now = .error (.indexErr e))
    ∧ (((r.metadata.section_images.map (fun i => i.section_number)).Nodup
        ∧ (r.metadata.section_images.map (fun i => i.id)).Nodup) →
      ∃ ds fsr dls, initSectionDataSet md5hex parse section_id
        download_directory s3_client w fs now = .ok (ds, fsr, dls)) := by
  constructor
  · intro hnd
    cases hb : buildIndex r.metadata.section_images emptySectionIndex with
    | error e =>
      refine ⟨e, ?_⟩
      simp only [initSectionDataSet, hmeta, hb]
    | ok idx =>
      exact absurd (buildIndex_ok_nodup _ _ _ hb).1 hnd
  · intro hnd
    obtain ⟨idx, hb⟩ := buildIndex_nodup_ok r.metadata.section_images
      emptySectionIndex hnd.1 hnd.2 (fun x hx => ⟨rfl, rfl, rfl⟩)
    simp only [initSectionDataSet, hmeta, hb]
    exact ⟨_, _, _, rfl⟩

/-- The filesystem after the fixture metadata fetch into directory `dl`
at time 0. -/
def exFS2 : LocalFS :=
  ⟨[("dl/section_data_set_7_metadata.json", .file [0] 0), ("dl", .dir)]⟩

def exMR7 : MetaResult SectionMetadata :=
  ⟨exMeta, exFS2, get_public_boto3_client,
   ["section_data_set_7/section_data_set.json"]⟩

def exMRdup : MetaResult SectionMetadata :=
  ⟨exMetaDup, exFS2, get_public_boto3_client,
   ["section_data_set_7/section_data_set.json"]⟩

/-- Witness for C5: in the fixture world, the duplicated batch fails with
an assertion error and the duplicate-free batch constructs. -/
theorem initSectionDataSet_uniqueness_witness :
    (∃ e, initSectionDataSet exMd5 exParseDup 7 "dl" none exWorld emptyFS 0 =
      .error (.indexErr e))
    ∧ (∃ ds fsr dls, initSectionDataSet exMd5 exParse 7 "dl" none exWorld
        emptyFS 0 = .ok (ds, fsr, dls)) := by
  constructor
  · exact (initSectionDataSet_uniqueness exMd5 exParseDup 7 "dl" none exWorld
      emptyFS 0 exMRdup (by decide)).1 (by decide)
  · exact (initSectionDataSet_uniqueness exMd5 exParse 7 "dl" none exWorld
      emptyFS 0 exMR7 (by decide)).2 (by decide)

/-- A successful build preserves the invariant that every entry of the
sub-image dict maps to a tissue index present in the image dict. -/
theorem buildIndex_sub_points_to_img (imgs : List SectionImage) :
    ∀ (acc idx : SectionIndex), buildIndex imgs acc = .ok idx →
      (∀ i t, dictGet i acc.subimg_to_tissue_index = some t →
        (dictGet t acc.tissue_index_to_section_img).isSome) →
      ∀ i t, dictGet i idx.subimg_to_tissue_index = some t →
        (dictGet t idx.tissue_index_to_section_img).isSome := by
  induction imgs with
  | nil =>
    intro acc idx h hinv
    cases h
    exact hinv
  | cons img rest ih =>
    intro acc idx h hinv
    simp only [buildIndex] at h
    by_cases h1 :
        (dictGet img.section_number acc.tissue_index_to_section_img).isSome
    · rw [if_pos h1] at h
      cases h
    · rw [if_neg h1] at h
      by_cases h2 : (dictGet img.id acc.subimg_to_tissue_index).isSome
      · rw [if_pos h2] at h
        cases h
      · rw [if_neg h2] at h
        by_cases h3 :
            (dictGet img.section_number acc.tissue_index_to_subimg).isSome
        · rw [if_pos h3] at h
          cases h
        · rw [if_neg h3] at h
          apply ih _ idx h
          intro i t hit0
          have hit : dictGet i ((img.id, img.section_number) ::
              acc.subimg_to_tissue_index) = some t := hit0
          show (dictGet t ((img.section_number, img) ::
            acc.tissue_index_to_section_img)).isSome = true
          by_cases hii : i = img.id
          · have heq : dictGet i ((img.id, img.section_number) ::
                acc.subimg_to_tissue_index) = some img.section_number := by
              show (if i = img.id then some img.section_number
                else dictGet i acc.subimg_to_tissue_index) =
                some img.section_number
              rw [if_pos hii]
            rw [heq] at hit
            cases hit
            have heq2 : dictGet img.section_number ((img.section_number, img)
                :: acc.tissue_index_to_section_img) = some img := by
              show (if img.section_number = img.section_number then some img
                else dictGet img.section_number
                  acc.tissue_index_to_section_img) = some img
              rw [if_pos rfl]
            rw [heq2]
            rfl
          · rw [dictGet_cons_of_ne img.section_number
              acc.subimg_to_tissue_index hii] at hit
            have hs := hinv i t hit
            by_cases hts : t = img.section_number
            · have heq2 : dictGet t ((img.section_number, img) ::
                  acc.tissue_index_to_section_img) = some img := by
                show (if t = img.section_number then some img
                  else dictGet t acc.tissue_index_to_section_img) = some img
                rw [if_pos hts]
              rw [heq2]
              rfl
            · rw [dictGet_cons_of_ne img acc.tissue_index_to_section_img hts]
              exact hs

/-- C6: for every sub-image ID present in a successfully constructed
`SectionDataSet`, the sub-image lookup resolves the ID to its tissue index
and delegates to the tissue-index lookup, so both return the identical
record. -/
theorem image_metadata_lookup_symmetry (md5hex : Bytes → String)
    (parse : Bytes → Option SectionMetadata) (section_id : Int)
    (download_directory : String) (s3_client : Option S3Client) (w : World)
    (fs : LocalFS) (now : Nat) (ds : SectionDataSet) (fsr : LocalFS)
    (dls : List String)
    (h : initSectionDataSet md5hex parse section_id download_directory
      s3_client w fs now = .ok (ds, fsr, dls))
    (i t : Int) (ht : dictGet i ds.index.subimg_to_tissue_index = some t) :
    image_metadata_from_sub_image ds i = image_metadata_from_tissue_index ds t
    ∧ ∃ img, image_metadata_from_sub_image ds i = (some img, []) := by
  have hbuild : ∃ imgs, buildIndex imgs emptySectionIndex = .ok ds.index := by
    cases hm : get_section_metadata md5hex parse section_id
        download_directory none w (ensureDir fs download_directory) now
        "allen-mouse-brain-atlas" with
    | error e =>
      simp only [initSectionDataSet, hm] at h
      cases h
    | ok r =>
      cases hb : buildIndex r.metadata.section_images emptySectionIndex with
      | error e =>
        simp only [initSectionDataSet, hm, hb] at h
        cases h
      | ok idx =>
        simp only [initSectionDataSet, hm, hb, Except.ok.injEq,
          Prod.mk.injEq] at h
        refine ⟨r.metadata.section_images, ?_⟩
        rw [← h.1]
        exact hb
  obtain ⟨imgs, hb⟩ := hbuild
  have hsome := buildIndex_sub_points_to_img imgs emptySectionIndex ds.index
    hb (fun i' t' hit => nomatch hit) i t ht
  obtain ⟨img, himg⟩ := Option.isSome_iff_exists.mp hsome
  constructor
  · unfold image_metadata_from_sub_image
    rw [ht]
  · refine ⟨img, ?_⟩
    unfold image_metadata_from_sub_image
    rw [ht]
    show image_metadata_from_tissue_index ds t = (some img, [])
    unfold image_metadata_from_tissue_index
    rw [himg]

/-- The `SectionDataSet` constructed from the fixture metadata. -/
def exDs : SectionDataSet :=
  ⟨"dl", 7, get_public_boto3_client, [("genes", "Abc")],
   ⟨[(2, exImg2), (1, exImg1)], [(102, 2), (101, 1)], [(2, 102), (1, 101)]⟩,
   [1, 2], [101, 102]⟩

/-- Witness for C6: in the fixture dataset, sub-image 101 resolves to
tissue index 1 and both lookups return the same record. -/
theorem image_metadata_lookup_symmetry_witness :
    image_metadata_from_sub_image exDs 101 =
      image_metadata_from_tissue_index exDs 1
    ∧ ∃ img, image_metadata_from_sub_image exDs 101 = (some img, []) :=
  image_metadata_lookup_symmetry exMd5 exParse 7 "dl" none exWorld emptyFS 0
    exDs exFS2 ["section_data_set_7/section_data_set.json"] (by decide)
    101 1 (by decide)

/-- C7: for a tissue index absent from the index, the tissue-index lookup
issues a warning naming the offending tissue index and the section ID and
returns the `None` sentinel — the lookup functions are total, so no
exception can be raised; the same holds for the sub-image lookup on an
absent sub-image ID. -/
theorem image_metadata_absent_warns (ds : SectionDataSet) (t s : Int)
    (ht : dictGet t ds.index.tissue_index_to_section_img = none)
    (hs : dictGet s ds.index.subimg_to_tissue_index = none) :
    image_metadata_from_tissue_index ds t =
      (none, [tissueIndexWarning t ds.section_id])
    ∧ image_metadata_from_sub_image ds s =
      (none, [subImageWarning s ds.section_id])
    ∧ (∃ a b, tissueIndexWarning t ds.section_id = a ++ toString t ++ b)
    ∧ (∃ a b, tissueIndexWarning t ds.section_id =
        a ++ toString ds.section_id ++ b)
    ∧ (∃ a b, subImageWarning s ds.section_id = a ++ toString s ++ b)
    ∧ (∃ a b, subImageWarning s ds.section_id =
        a ++ toString ds.section_id ++ b) := by
  refine ⟨?_, ?_, ?_, ?_, ?_, ?_⟩
  · unfold image_metadata_from_tissue_index
    rw [ht]
  · unfold image_metadata_from_sub_image
    rw [hs]
  · refine ⟨"tissue_index ",
      " does not exist in section_data_set_" ++ toString ds.section_id, ?_⟩
    unfold tissueIndexWarning
    rw [String.append_assoc]
  · refine ⟨"tissue_index " ++ toString t ++
      " does not exist in section_data_set_", "", ?_⟩
    unfold tissueIndexWarning
    rw [String.append_empty]
  · refine ⟨"sub_image ",
      " does not exist in section_data_set_" ++ toString ds.section_id, ?_⟩
    unfold subImageWarning
    rw [String.append_assoc]
  · refine ⟨"sub_image " ++ toString s ++
      " does not exist in section_data_set_", "", ?_⟩
    unfold subImageWarning
    rw [String.append_empty]

/-- Witness for C7: tissue index 99 and sub-image 999 are absent from the
fixture dataset; both lookups return the sentinel and the exact warning. -/
theorem image_metadata_absent_warns_witness :
    image_metadata_from_tissue_index exDs 99 =
      (none, [tissueIndexWarning 99 7])
    ∧ image_metadata_from_sub_image exDs 999 =
      (none, [subImageWarning 999 7]) := by
  have h := image_metadata_absent_warns exDs 99 999 (by decide) (by decide)
  exact ⟨h.1, h.2.1⟩

/-- C8: the expected user errors of an image download — output path
exists as a non-file; output path exists as a file with `clobber=False`;
requested downsample tier absent — return `False` with a warning rather
than raising and leave the filesystem (hence any existing output file's
bytes and mtime) unchanged; the no-clobber warning carries the
`clobber=True` remedial instruction. The same call on an existing file
with `clobber=True` proceeds, returns `True` and replaces the output
path's bytes with the encoded crop. -/
theorem downloadImg_soft_failures
    (crop : Bytes → Int × Int × Int × Int → Bytes) (ds : SectionDataSet)
    (t d : Int) (p : String) (clobber : Bool) (w : World) (fs : LocalFS)
    (now : Nat) :
    (fs.look p = some .dir →
      downloadImg crop ds t d p clobber w fs now =
        .ok ⟨false, fs, [notAFileWarning p]⟩)
    ∧ (∀ c m, fs.look p = some (.file c m) → clobber = false →
        downloadImg crop ds t d p clobber w fs now =
          .ok ⟨false, fs, [clobberWarning p]⟩
        ∧ ∃ a b, clobberWarning p = a ++ "clobber=True" ++ b)
    ∧ (∀ img, (fs.look p = none ∨
          (clobber = true ∧ ∃ c m, fs.look p = some (.file c m))) →
        dictGet t ds.index.tissue_index_to_section_img = some img →
        dictGet ("downsample_" ++ toString d) img.downsampling = none →
        downloadImg crop ds t d p clobber w fs now =
          .ok ⟨false, fs, [tierWarning d img.image_file_name]⟩)
    ∧ (∀ c m img rect o, fs.look p = some (.file c m) → clobber = true →
        dictGet t ds.index.tissue_index_to_section_img = some img →
        dictGet ("downsample_" ++ toString d) img.downsampling = some rect →
        s3Find (w.view ds.s3_client) "allen-mouse-brain-atlas"
          ("section_data_set_" ++ toString ds.section_id ++ "/" ++
            ("downsample_" ++ toString d) ++ "/" ++ img.image_file_name) =
          some o →
        downloadImg crop ds t d p clobber w fs now =
          .ok ⟨true, fs.write p (crop o.content (rect.x, rect.y,
            rect.x + rect.width, rect.y + rect.height)) now, []⟩
        ∧ (fs.write p (crop o.content (rect.x, rect.y, rect.x + rect.width,
            rect.y + rect.height)) now).look p =
          some (.file (crop o.content (rect.x, rect.y, rect.x + rect.width,
            rect.y + rect.height)) now)) := by
  refine ⟨?_, ?_, ?_, ?_⟩
  · intro hlk
    unfold downloadImg
    rw [hlk]
  · intro c m hlk hcl
    subst hcl
    constructor
    · unfold downloadImg
      rw [hlk]
      show (if false = true then downloadImgCore crop ds t d p w fs now
        else .ok ⟨false, fs, [clobberWarning p]⟩) =
        .ok ⟨false, fs, [clobberWarning p]⟩
      rw [if_neg Bool.false_ne_true]
    · refine ⟨p ++ " already exists; re-run with ", " to overwrite", ?_⟩
      have hcat : (" already exists; re-run with " : String) ++
          ("clobber=True" ++ " to overwrite") =
          " already exists; re-run with clobber=True to overwrite" := by
        decide
      unfold clobberWarning
      rw [String.append_assoc, String.append_assoc, hcat]
  · intro img hstart himg htier
    have hmeta : image_metadata_from_tissue_index ds t = (some img, []) := by
      unfold image_metadata_from_tissue_index
      rw [himg]
    have hcore : downloadImgCore crop ds t d p w fs now =
        .ok ⟨false, fs, [tierWarning d img.image_file_name]⟩ := by
      simp only [downloadImgCore, hmeta, htier]
    rcases hstart with hlk | ⟨hcl, c, m, hlk⟩
    · unfold downloadImg
      rw [hlk]
      exact hcore
    · subst hcl
      unfold downloadImg
      rw [hlk]
      show (if true = true then downloadImgCore crop ds t d p w fs now
        else .ok ⟨false, fs, [clobberWarning p]⟩) =
        .ok ⟨false, fs, [tierWarning d img.image_file_name]⟩
      rw [if_pos rfl]
      exact hcore
  · intro c m img rect o hlk hcl himg htier hfind
    subst hcl
    have hmeta : image_metadata_from_tissue_index ds t = (some img, []) := by
      unfold image_metadata_from_tissue_index
      rw [himg]
    have hcore : downloadImgCore crop ds t d p w fs now =
        .ok ⟨true, fs.write p (crop o.content (rect.x, rect.y,
          rect.x + rect.width, rect.y + rect.height)) now, []⟩ := by
      simp only [downloadImgCore, hmeta, htier, hfind]
    constructor
    · unfold downloadImg
      rw [hlk]
      show (if true = true then downloadImgCore crop ds t d p w fs now
        else .ok ⟨false, fs, [clobberWarning p]⟩) =
        .ok ⟨true, fs.write p (crop o.content (rect.x, rect.y,
          rect.x + rect.width, rect.y + rect.height)) now, []⟩
      rw [if_pos rfl]
      exact hcore
    · exact look_write_self fs p _ now

/-- An output path occupied by a directory. -/
def fsDirOut : LocalFS := ⟨[("out.tiff", .dir)]⟩

/-- An output path occupied by a one-byte file written at time 3. -/
def fsFileOut : LocalFS := ⟨[("out.tiff", .file [1] 3)]⟩

/-- Witness for C8: the three soft failures on concrete filesystems, and
the clobbering success that replaces the output file's bytes. -/
theorem downloadImg_soft_failures_witness :
    downloadImg exCrop exDs 1 4 "out.tiff" false exWorld fsDirOut 7 =
      .ok ⟨false, fsDirOut, [notAFileWarning "out.tiff"]⟩
    ∧ downloadImg exCrop exDs 1 4 "out.tiff" false exWorld fsFileOut 7 =
      .ok ⟨false, fsFileOut, [clobberWarning "out.tiff"]⟩
    ∧ downloadImg exCrop exDs 1 9 "out.tiff" false exWorld emptyFS 7 =
      .ok ⟨false, emptyFS, [tierWarning 9 "img1.jpg"]⟩
    ∧ downloadImg exCrop exDs 1 4 "out.tiff" true exWorld fsFileOut 7 =
      .ok ⟨true, fsFileOut.write "out.tiff" [9, 5, 6] 7, []⟩ := by
  refine ⟨?_, ?_, ?_, ?_⟩
  · exact (downloadImg_soft_failures exCrop exDs 1 4 "out.tiff" false
      exWorld fsDirOut 7).1 (by decide)
  · exact ((downloadImg_soft_failures exCrop exDs 1 4 "out.tiff" false
      exWorld fsFileOut 7).2.1 [1] 3 (by decide) rfl).1
  · exact (downloadImg_soft_failures exCrop exDs 1 9 "out.tiff" false
      exWorld emptyFS 7).2.2.1 exImg1 (Or.inl (by decide)) (by decide)
      (by decide)
  · exact ((downloadImg_soft_failures exCrop exDs 1 4 "out.tiff" true
      exWorld fsFileOut 7).2.2.2 [1] 3 exImg1 exRect exImgObj (by decide)
      rfl (by decide) (by decide) (by decide)).1

/-- C1: every metadata entry point invoked with `s3_client=None` creates
the anonymous-credentials public client via `get_public_boto3_client` and
proceeds with it against the given (public) bucket: each call behaves
identically to the call explicitly given the anonymous client, and any
successful `download_s3_metadata_file` run started from `None` reports
the anonymous client as the one used. -/
theorem anonymous_client_on_none {α : Type} (md5hex : Bytes → String)
    (parse : Bytes → Option α) (parse2 : Bytes → Option SectionMetadata)
    (download_directory downloaded_local_fname metadata_s3_key : String)
    (section_id : Int) (w : World) (fs : LocalFS) (now : Nat)
    (bucket_name : String) :
    get_public_boto3_client.creds = .anonymous
    ∧ download_s3_metadata_file md5hex parse download_directory
        downloaded_local_fname metadata_s3_key none w fs now bucket_name =
      download_s3_metadata_file md5hex parse download_directory
        downloaded_local_fname metadata_s3_key (some get_public_boto3_client)
        w fs now bucket_name
    ∧ (∀ r, download_s3_metadata_file md5hex parse download_directory
        downloaded_local_fname metadata_s3_key none w fs now bucket_name =
        .ok r → r.client = get_public_boto3_client)
    ∧ get_atlas_metadata md5hex parse download_directory none w fs now
        bucket_name =
      get_atlas_metadata md5hex parse download_directory
        (some get_public_boto3_client) w fs now bucket_name
    ∧ get_section_metadata md5hex parse2 section_id download_directory none
        w fs now bucket_name =
      get_section_metadata md5hex parse2 section_id download_directory
        (some get_public_boto3_client) w fs now bucket_name
    ∧ initSectionDataSet md5hex parse2 section_id download_directory none w
        fs now =
      initSectionDataSet md5hex parse2 section_id download_directory
        (some get_public_boto3_client) w fs now := by
  refine ⟨rfl, rfl, ?_, rfl, rfl, rfl⟩
  intro r hr
  simp only [download_s3_metadata_file, Option.getD_none] at hr
  split at hr
  · cases hr
  · split at hr
    · split at hr
      · simp only [Except.ok.injEq] at hr
        rw [← hr]
      · cases hr
    · cases hr

/-- The result of the fixture metadata fetch through
`download_s3_metadata_file` into `dl/f.json`. -/
def exMRf : MetaResult SectionMetadata :=
  ⟨exMeta, ⟨[("dl/f.json", .file [0] 0), ("dl", .dir)]⟩,
   get_public_boto3_client, ["section_data_set_7/section_data_set.json"]⟩

/-- Witness for C1: the fixture fetch with `s3_client=None` succeeds and
used the anonymous public client. -/
theorem anonymous_client_on_none_witness :
    download_s3_metadata_file exMd5 exParse "dl" "f.json"
      "section_data_set_7/section_data_set.json" none exWorld emptyFS 0
      "allen-mouse-brain-atlas" = .ok exMRf
    ∧ exMRf.client = get_public_boto3_client := by
  constructor
  · decide
  · exact (anonymous_client_on_none exMd5 exParse exParse "dl" "f.json"
      "section_data_set_7/section_data_set.json" 7 exWorld emptyFS 0
      "allen-mouse-brain-atlas").2.2.1 exMRf (by decide)

/-- Projection of a construction result that drops the stored client. -/
def stripClient :
    Except InitErr (SectionDataSet × LocalFS × List String) →
      Except InitErr ((String × Int × List (String × String) × SectionIndex
        × List Int × List Int) × LocalFS × List String)
  | .error e => .error e
  | .ok (ds, fsr, dls) =>
    .ok ((ds.download_dir, ds.section_id, ds.metadata_fields, ds.index,
      ds.tissue_indices, ds.sub_image_ids), fsr, dls)

/-- C9: two `SectionDataSet` constructions that differ only in the
`s3_client` argument (another client, or `None`) load and index identical
metadata: `__init__` calls `get_section_metadata` without forwarding the
caller's client, so everything except the stored client field — the
metadata, the index, the identifier lists, the resulting filesystem and
the downloads issued — is independent of that argument. -/
theorem initSectionDataSet_client_independent (md5hex : Bytes → String)
    (parse : Bytes → Option SectionMetadata) (section_id : Int)
    (download_directory : String) (c1 c2 : Option S3Client) (w : World)
    (fs : LocalFS) (now : Nat) :
    stripClient (initSectionDataSet md5hex parse section_id
      download_directory c1 w fs now) =
    stripClient (initSectionDataSet md5hex parse section_id
      download_directory c2 w fs now) := by
  simp only [initSectionDataSet]
  cases hm : get_section_metadata md5hex parse section_id
      download_directory none w (ensureDir fs download_directory) now
      "allen-mouse-brain-atlas" with
  | error e => rfl
  | ok r =>
    dsimp only []
    cases hb : buildIndex r.metadata.section_images emptySectionIndex with
    | error e => rfl
    | ok idx => rfl

/-- The URL prefix is wholly inside its own character set, so `lstrip`
always consumes it entirely and continues into the key. -/
theorem pyLstrip_prefix_consumed (key : String) :
    ivyRelPath (ivyBucketUrlPfx ++ key) = pyLstrip ivyBucketUrlPfx key := by
  unfold ivyRelPath pyLstrip
  apply String.ext
  show ((ivyBucketUrlPfx ++ key).data.dropWhile
      (fun c => decide (c ∈ ivyBucketUrlPfx.data))) =
    key.data.dropWhile (fun c => decide (c ∈ ivyBucketUrlPfx.data))
  rw [String.data_append]
  exact List.dropWhile_append_of_pos (by decide)

/-- C10: the ivy-gap remote-key derivation
`s3_obj_url.lstrip("s3://allen-ivy-glioblastoma-atlas/")` removes every
leading character belonging to the character set of the prefix string
(exactly the set named in the claim) rather than removing the prefix
once: for a URL `prefix ++ key` with `key` nonempty, the derived key
equals `key` exactly when `key`'s first character lies outside that set,
and when the first character lies inside it the derived key is a strict
suffix of `key` — a different object is addressed. -/
theorem ivyRelPath_lstrip_char_set (key : String) (c : Char)
    (cs : List Char) (hk : key.data = c :: cs) :
    (c ∈ ivyBucketUrlPfx.data ↔ c ∈ claimedStripSet)
    ∧ (ivyRelPath (ivyBucketUrlPfx ++ key) = key ↔
        c ∉ ivyBucketUrlPfx.data)
    ∧ (c ∈ ivyBucketUrlPfx.data →
        List.IsSuffix (ivyRelPath (ivyBucketUrlPfx ++ key)).data key.data
        ∧ ivyRelPath (ivyBucketUrlPfx ++ key) ≠ key) := by
  have hrel := pyLstrip_prefix_consumed key
  have h1 : ∀ x ∈ ivyBucketUrlPfx.data, x ∈ claimedStripSet := by decide
  have h2 : ∀ x ∈ claimedStripSet, x ∈ ivyBucketUrlPfx.data := by decide
  have hin : c ∈ ivyBucketUrlPfx.data →
      List.IsSuffix (ivyRelPath (ivyBucketUrlPfx ++ key)).data key.data
      ∧ ivyRelPath (ivyBucketUrlPfx ++ key) ≠ key := by
    intro hc
    have hdata : (ivyRelPath (ivyBucketUrlPfx ++ key)).data =
        cs.dropWhile (fun x => decide (x ∈ ivyBucketUrlPfx.data)) := by
      rw [hrel]
      show key.data.dropWhile (fun x => decide (x ∈ ivyBucketUrlPfx.data)) =
        cs.dropWhile (fun x => decide (x ∈ ivyBucketUrlPfx.data))
      rw [hk, List.dropWhile_cons, if_pos (decide_eq_true hc)]
    constructor
    · rw [hdata, hk]
      exact (List.dropWhile_suffix _).trans (List.suffix_cons c cs)
    · intro heq
      have hlen : (cs.dropWhile
          (fun x => decide (x ∈ ivyBucketUrlPfx.data))).length ≤ cs.length :=
        List.Sublist.length_le (List.dropWhile_sublist _)
      rw [heq, hk] at hdata
      have : (c :: cs).length =
          (cs.dropWhile (fun x => decide (x ∈ ivyBucketUrlPfx.data))).length
          := by rw [hdata]
      simp only [List.length_cons] at this
      omega
  refine ⟨⟨fun h => h1 c h, fun h => h2 c h⟩, ⟨?_, ?_⟩, hin⟩
  · intro heq hc
    exact (hin hc).2 heq
  · intro hc
    rw [hrel]
    apply String.ext
    show key.data.dropWhile (fun x => decide (x ∈ ivyBucketUrlPfx.data)) =
      key.data
    rw [hk, List.dropWhile_cons,
      if_neg (fun h => hc (of_decide_eq_true h))]

/-- Witness for C10: the key `x7.jpg` (first character outside the strip
set) survives the derivation, while the key `test.jpg` (first character
`t` inside the set) is corrupted. -/
theorem ivyRelPath_lstrip_char_set_witness :
    ivyRelPath (ivyBucketUrlPfx ++ "x7.jpg") = "x7.jpg"
    ∧ ivyRelPath (ivyBucketUrlPfx ++ "test.jpg") ≠ "test.jpg" := by
  constructor
  · exact (ivyRelPath_lstrip_char_set "x7.jpg" 'x' "7.jpg".data
      (by decide)).2.1.mpr (by decide)
  · exact ((ivyRelPath_lstrip_char_set "test.jpg" 't' "est.jpg".data
      (by decide)).2.2 (by decide)).2

end OpenDatasetTools
